import Mathlib

/-!
Shallow embedding of `samsung/exynos_drm_hibernation.c`, the display
hibernation controller: trigger countdown, blocking (veto) ref-count, and
the enter/exit sequences against the pipeline (DECON), the display link
(DSIM), the writeback path and the runtime power domain.

Kernel atomics become plain integer fields (all the claims are about the
sequential semantics of single calls); subsystem notifications and the
lock/block bracketing are recorded as an event trace so that call order
can be stated.
-/

namespace ExynosDrm

/-- Modelled from the spec: the DECON pipeline power-state enum is declared
in `exynos_drm_decon.h`, which is not under `src/`.  The spec lists ACTIVE
(`DECON_STATE_ON`) and HIBERNATING (`DECON_STATE_HIBERNATION`); a third
value stands for any other state, which the source's defensive
`state != ...` tests allow for. -/
inductive DeconState where
  | DECON_STATE_ON
  | DECON_STATE_HIBERNATION
  | DECON_STATE_OFF
  deriving DecidableEq

/-- Modelled from the spec: the slice of `struct decon_device`
(`exynos_drm_decon.h`, not under `src/`) that the hibernation core reads:
the power state, the active refresh rate `bts.fps` (0 = none reported),
the currently attached writeback and display-link sub-objects (handles
modelled as numbers), and the runtime power-domain reference count of
`decon->dev` (the kernel's `pm_runtime` counter, modelled explicitly so
that double release/acquire is statable). -/
structure DeconDevice where
  state : DeconState
  fps : Nat
  wb : Option Nat
  dsim : Option Nat
  pm_cnt : Int
  deriving DecidableEq

/-- The controller state, `struct exynos_hibernation`: the pipeline
reference (nullable), the trigger countdown `trig_cnt` (a signed atomic in
the source), the veto count `block_cnt`, the optional camera-operation
register (its current readable value; `none` = register absent), the
captured transient writeback/link handles, and whether the function table
`funcs` is populated (registration sets it; `hibernation_block_exit`
checks it for NULL). -/
structure ExynosHibernation where
  decon : Option DeconDevice
  trig_cnt : Int
  block_cnt : Nat
  cam_op_val : Option Nat
  wb : Option Nat
  dsim : Option Nat
  funcs_present : Bool
  deriving DecidableEq

/-- Events recorded by the operations, in execution order: the transition
lock, the veto count, work cancellation, the trigger reset, and the
notifications to the dependent subsystems. -/
inductive Ev where
  | mutexLock
  | mutexUnlock
  | blockEv
  | unblockEv
  | cancelWork
  | trigResetEv
  | writebackEnter (h : Nat)
  | deconEnterEv
  | dsimEnterUlps (h : Nat)
  | releaseBw
  | pmPut
  | pmGet
  | dsimExitUlps (h : Nat)
  | deconExitEv
  | writebackExit (h : Nat)
  deriving DecidableEq

/-- Which events are notifications to a dependent subsystem (as opposed to
the controller's internal lock/veto/cancel/reset bookkeeping). -/
def Ev.isNotify : Ev → Bool
  | .writebackEnter _ => true
  | .deconEnterEv => true
  | .dsimEnterUlps _ => true
  | .releaseBw => true
  | .pmPut => true
  | .pmGet => true
  | .dsimExitUlps _ => true
  | .deconExitEv => true
  | .writebackExit _ => true
  | _ => false

/-- The subsystem notifications of a trace, in order. -/
def notifyEvents (tr : List Ev) : List Ev := tr.filter Ev.isNotify

/-- The singleton event for an optional handle: `[f h]` when the handle is
attached, `[]` when not (the source's `if (hiber->wb) ...` guards). -/
def optEv (f : Nat → Ev) : Option Nat → List Ev
  | some h => [f h]
  | none => []

/-- How often event `e` occurs in a trace. -/
def countEv (e : Ev) (tr : List Ev) : Nat :=
  (tr.filter fun x => decide (x = e)).length

def HIBERNATION_ENTRY_DEFAULT_FPS : Nat := 60

def HIBERNATION_ENTRY_MIN_TIME_MS : Nat := 50

def HIBERNATION_ENTRY_MIN_ENTRY_CNT : Nat := 1

def MSEC_PER_SEC : Nat := 1000

def CAMERA_OPERATION_MASK : Nat := 0xF

/-- The kernel macro `DIV_ROUND_UP(n, d) = (n + d - 1) / d` (all the
source's operands are non-negative, so `Nat` is exact). -/
def DIV_ROUND_UP (n d : Nat) : Nat := (n + d - 1) / d

/-- `is_camera_operating`: false when the camera-operation register is
absent, otherwise whether the read value intersects the operation mask. -/
def is_camera_operating (hiber : ExynosHibernation) : Bool :=
  match hiber.cam_op_val with
  | none => false
  | some v => (v &&& CAMERA_OPERATION_MASK) != 0

/-- Modelled from the spec: `is_hibernaton_blocked` (sic) is declared in
`exynos_drm_hibernation.h`, not under `src/`; the spec's eligibility
predicate for the BlockGuard is `block_count == 0`, so blocked means the
veto count is non-zero. -/
def is_hibernaton_blocked (hiber : ExynosHibernation) : Bool :=
  hiber.block_cnt != 0

/-- Modelled from the spec: `hibernation_block` (header, not under `src/`)
increments the veto count; infallible, never blocks. -/
def hibernation_block (hiber : ExynosHibernation) : ExynosHibernation :=
  { hiber with block_cnt := hiber.block_cnt + 1 }

/-- Modelled from the spec: `hibernation_unblock` (header, not under
`src/`) decrements the veto count. -/
def hibernation_unblock (hiber : ExynosHibernation) : ExynosHibernation :=
  { hiber with block_cnt := hiber.block_cnt - 1 }

/-- The kernel's `atomic_dec_and_test`: decrement, and report whether the
new value is zero. -/
def atomic_dec_and_test (v : Int) : Int × Bool :=
  (v - 1, v - 1 == 0)

/-- The stored countdown computed by `exynos_hibernation_trig_reset` from
the pipeline's `bts.fps`: the GNU `?:` default to 60 when the rate is 0,
then `DIV_ROUND_UP(fps * 50, 1000)` clamped from below to 1. -/
def entryCnt (btsFps : Nat) : Nat :=
  let fps := if btsFps = 0 then HIBERNATION_ENTRY_DEFAULT_FPS else btsFps
  let e := DIV_ROUND_UP (fps * HIBERNATION_ENTRY_MIN_TIME_MS) MSEC_PER_SEC
  if e < HIBERNATION_ENTRY_MIN_ENTRY_CNT then HIBERNATION_ENTRY_MIN_ENTRY_CNT else e

/-- `exynos_hibernation_trig_reset`: store the computed countdown.  The
source dereferences `hiber->decon` unconditionally; all its call sites
(registration, and `exit` after the NULL check) guarantee presence, so the
`none` branch is never exercised. -/
def exynos_hibernation_trig_reset (hiber : ExynosHibernation) : ExynosHibernation :=
  match hiber.decon with
  | some decon => { hiber with trig_cnt := (entryCnt decon.fps : Int) }
  | none => hiber

/-- `exynos_hibernation_check`: the C expression
`!is_hibernaton_blocked(hiber) && !is_camera_operating(hiber) &&
atomic_dec_and_test(&hiber->trig_cnt)` with C's short-circuit `&&`: the
decrement runs only when the first two conjuncts hold. -/
def exynos_hibernation_check (hiber : ExynosHibernation) : Bool × ExynosHibernation :=
  if is_hibernaton_blocked hiber then (false, hiber)
  else if is_camera_operating hiber then (false, hiber)
  else
    let dec := atomic_dec_and_test hiber.trig_cnt
    (dec.2, { hiber with trig_cnt := dec.1 })

/-- Modelled from the spec: `decon_enter_hibernation` (pipeline-internal
hook, not under `src/`) flips the pipeline's state flag to HIBERNATING. -/
def decon_enter_hibernation (decon : DeconDevice) : DeconDevice :=
  { decon with state := .DECON_STATE_HIBERNATION }

/-- Modelled from the spec: `decon_exit_hibernation` (pipeline-internal
hook, not under `src/`) flips the pipeline's state flag back to ACTIVE. -/
def decon_exit_hibernation (decon : DeconDevice) : DeconDevice :=
  { decon with state := .DECON_STATE_ON }

/-- Modelled from the spec: `decon_get_wb` (not under `src/`) is the
accessor for the currently attached writeback sub-object. -/
def decon_get_wb (decon : DeconDevice) : Option Nat := decon.wb

/-- Modelled from the spec: `decon_get_dsim` (not under `src/`) is the
accessor for the currently attached display-link sub-object. -/
def decon_get_dsim (decon : DeconDevice) : Option Nat := decon.dsim

/-- The kernel's `pm_runtime_put_sync` on `decon->dev`, modelled as a
reference-count decrement. -/
def pm_runtime_put_sync (decon : DeconDevice) : DeconDevice :=
  { decon with pm_cnt := decon.pm_cnt - 1 }

/-- The kernel's `pm_runtime_get_sync` on `decon->dev`, modelled as a
reference-count increment. -/
def pm_runtime_get_sync (decon : DeconDevice) : DeconDevice :=
  { decon with pm_cnt := decon.pm_cnt + 1 }

/-- `exynos_hibernation_enter`: return on a NULL pipeline; otherwise lock,
block, and — only when the pipeline is ACTIVE — capture the writeback and
notify it, flip the pipeline into hibernation, capture the link and put it
into ULPS, release bandwidth, release the power-domain reference; then
unblock and unlock.  Returns the new state and the event trace. -/
def exynos_hibernation_enter (hiber : ExynosHibernation) : ExynosHibernation × List Ev :=
  match hiber.decon with
  | none => (hiber, [])
  | some decon =>
    let h1 := hibernation_block hiber
    if decon.state ≠ DeconState.DECON_STATE_ON then
      (hibernation_unblock h1, [.mutexLock, .blockEv, .unblockEv, .mutexUnlock])
    else
      let wb := decon_get_wb decon
      let decon1 := decon_enter_hibernation decon
      let dsim := decon_get_dsim decon1
      let decon2 := pm_runtime_put_sync decon1
      let h2 := { h1 with decon := some decon2, wb := wb, dsim := dsim }
      (hibernation_unblock h2,
        [Ev.mutexLock, Ev.blockEv] ++ optEv Ev.writebackEnter wb
          ++ [Ev.deconEnterEv] ++ optEv Ev.dsimEnterUlps dsim
          ++ [Ev.releaseBw, Ev.pmPut, Ev.unblockEv, Ev.mutexUnlock])

/-- Linux `-ENODEV`. -/
def ENODEV_NEG : Int := -19

/-- Linux `-EBUSY` (the initial value of `ret` in the source). -/
def EBUSY_NEG : Int := -16

/-- `exynos_hibernation_exit`: `-ENODEV` on a NULL pipeline; otherwise
block, cancel the queued entry work, lock, always reset the trigger
countdown; when the pipeline is not HIBERNATING, unlock/unblock and return
`-EBUSY`; when it is, re-acquire the power-domain reference, take the link
out of ULPS and clear the captured handle, flip the pipeline back to
ACTIVE, re-enable the writeback and clear its handle, and return 0.
Returns (return value, new state, event trace). -/
def exynos_hibernation_exit (hiber : ExynosHibernation) :
    Int × ExynosHibernation × List Ev :=
  match hiber.decon with
  | none => (ENODEV_NEG, hiber, [])
  | some decon =>
    let h1 := hibernation_block hiber
    let h2 := exynos_hibernation_trig_reset h1
    if decon.state ≠ DeconState.DECON_STATE_HIBERNATION then
      (EBUSY_NEG, hibernation_unblock h2,
        [.blockEv, .cancelWork, .mutexLock, .trigResetEv, .mutexUnlock, .unblockEv])
    else
      let decon1 := pm_runtime_get_sync decon
      let dsim := h2.dsim
      let h3 := { h2 with dsim := none }
      let decon2 := decon_exit_hibernation decon1
      let wb := h3.wb
      let h4 := { h3 with wb := none, decon := some decon2 }
      (0, hibernation_unblock h4,
        [Ev.blockEv, Ev.cancelWork, Ev.mutexLock, Ev.trigResetEv, Ev.pmGet]
          ++ optEv Ev.dsimExitUlps dsim ++ [Ev.deconExitEv]
          ++ optEv Ev.writebackExit wb ++ [Ev.mutexUnlock, Ev.unblockEv])

/-- `hibernation_block_exit`: false on a NULL controller; otherwise block
unconditionally, then `!funcs || !funcs->exit(hiber)` with C's
short-circuit: true when the function table is absent, else true exactly
when `exit` returned 0. -/
def hibernation_block_exit (hiber : Option ExynosHibernation) :
    Bool × Option ExynosHibernation × List Ev :=
  match hiber with
  | none => (false, none, [])
  | some h =>
    let h1 := hibernation_block h
    if !h1.funcs_present then
      (true, some h1, [Ev.blockEv])
    else
      let r := exynos_hibernation_exit h1
      (r.1 == 0, some r.2.1, Ev.blockEv :: r.2.2)

/-- `exynos_hibernation_register`: `none` when the device tree lacks the
`hibernation` property, or when a `camera-operation` node exists but its
register cannot be mapped (`camNode = some none`); otherwise the zeroed
controller with the pipeline and function table set, the trigger countdown
reset, and the veto count 0.  Allocation failure is an environment
out-of-memory condition, left out of the model. -/
def exynos_hibernation_register (decon : DeconDevice) (hasHibernationProp : Bool)
    (camNode : Option (Option Nat)) : Option ExynosHibernation :=
  if !hasHibernationProp then none
  else
    match camNode with
    | some none => none
    | some (some v) =>
      some (exynos_hibernation_trig_reset
        { decon := some decon, trig_cnt := 0, block_cnt := 0, cam_op_val := some v,
          wb := none, dsim := none, funcs_present := true })
    | none =>
      some (exynos_hibernation_trig_reset
        { decon := some decon, trig_cnt := 0, block_cnt := 0, cam_op_val := none,
          wb := none, dsim := none, funcs_present := true })

/-- One enter→exit bracket: the state after a background entry followed by
a synchronous exit. -/
def hibCycle (hiber : ExynosHibernation) : ExynosHibernation :=
  (exynos_hibernation_exit (exynos_hibernation_enter hiber).1).2.1

/-- The invariant of claim C8 as a decidable check: whenever the pipeline
is present and ACTIVE, both captured transient handles are clear. -/
def handlesClear (hiber : ExynosHibernation) : Bool :=
  match hiber.decon with
  | none => true
  | some decon =>
    decon.state != DeconState.DECON_STATE_ON
      || (hiber.wb == none && hiber.dsim == none)

/-- The pipeline state left behind by a `hibernation_block_exit` result,
when both the controller and the pipeline are present. -/
def resultDeconState (r : Bool × Option ExynosHibernation × List Ev) : Option DeconState :=
  match r.2.1 with
  | none => none
  | some h =>
    match h.decon with
    | none => none
    | some decon => some decon.state

/-- The countdown after `k` calls to `atomic_dec_and_test` starting from
`c` (the worker's repeated `check` calls between resets). -/
def doTicks (c : Int) : Nat → Int
  | 0 => c
  | k + 1 => (atomic_dec_and_test (doTicks c k)).1

/-- A concrete ACTIVE pipeline: 0 fps reported, writeback 7 and link 5
attached, one power-domain reference held. -/
def dOn : DeconDevice :=
  { state := .DECON_STATE_ON, fps := 0, wb := some 7, dsim := some 5, pm_cnt := 1 }

/-- A concrete HIBERNATING pipeline at 120 fps. -/
def dHib : DeconDevice :=
  { state := .DECON_STATE_HIBERNATION, fps := 120, wb := some 7, dsim := some 5, pm_cnt := 0 }

/-- A concrete controller over the ACTIVE pipeline, with two vetoes held,
a quiet camera register and clear transient handles. -/
def sOn : ExynosHibernation :=
  { decon := some dOn, trig_cnt := 9, block_cnt := 2, cam_op_val := some 0,
    wb := none, dsim := none, funcs_present := true }

/-- A concrete controller over the HIBERNATING pipeline, holding the
captured handles from the enter sequence. -/
def sHib : ExynosHibernation :=
  { decon := some dHib, trig_cnt := 4, block_cnt := 0, cam_op_val := none,
    wb := some 7, dsim := some 5, funcs_present := true }

/-- A concrete controller with one veto held and countdown 5. -/
def sBlocked : ExynosHibernation :=
  { decon := none, trig_cnt := 5, block_cnt := 1, cam_op_val := none,
    wb := none, dsim := none, funcs_present := true }

/-- A concrete controller with no veto, countdown 5, and the camera
register reading 3 (operating). -/
def sCam : ExynosHibernation :=
  { decon := none, trig_cnt := 5, block_cnt := 0, cam_op_val := some 3,
    wb := none, dsim := none, funcs_present := true }

end ExynosDrm

namespace ExynosDrm

theorem countEv_nil (e : Ev) : countEv e [] = 0 := rfl

theorem countEv_cons (e x : Ev) (tr : List Ev) :
    countEv e (x :: tr) = (if x = e then 1 else 0) + countEv e tr := by
  by_cases h : x = e <;> simp [countEv, List.filter_cons, h, Nat.add_comm]

theorem countEv_append (e : Ev) (a b : List Ev) :
    countEv e (a ++ b) = countEv e a + countEv e b := by
  simp [countEv, List.filter_append]

theorem doTicks_eq (c : Int) (k : Nat) : doTicks c k = c - k := by
  induction k with
  | zero => simp [doTicks]
  | succ k ih =>
    simp only [doTicks, atomic_dec_and_test, ih]
    push_cast
    ring

theorem one_le_entryCnt (fps : Nat) : 1 ≤ entryCnt fps := by
  simp only [entryCnt, HIBERNATION_ENTRY_MIN_ENTRY_CNT, DIV_ROUND_UP,
    HIBERNATION_ENTRY_DEFAULT_FPS, HIBERNATION_ENTRY_MIN_TIME_MS, MSEC_PER_SEC]
  split <;> split <;> omega

theorem enter_block_cnt (s : ExynosHibernation) :
    (exynos_hibernation_enter s).1.block_cnt = s.block_cnt := by
  obtain ⟨dec, trig, blk, cam, wb, dsim, fp⟩ := s
  cases dec with
  | none => rfl
  | some d =>
    obtain ⟨st, fps, dwb, ddsim, pm⟩ := d
    cases st <;>
      simp [exynos_hibernation_enter, hibernation_block, hibernation_unblock,
        decon_enter_hibernation, decon_exit_hibernation, decon_get_wb,
        decon_get_dsim, pm_runtime_put_sync]

theorem exit_block_cnt (s : ExynosHibernation) :
    (exynos_hibernation_exit s).2.1.block_cnt = s.block_cnt := by
  obtain ⟨dec, trig, blk, cam, wb, dsim, fp⟩ := s
  cases dec with
  | none => rfl
  | some d =>
    obtain ⟨st, fps, dwb, ddsim, pm⟩ := d
    cases st <;>
      simp [exynos_hibernation_exit, exynos_hibernation_trig_reset,
        hibernation_block, hibernation_unblock, decon_exit_hibernation,
        pm_runtime_get_sync]

theorem hibCycle_decon (s : ExynosHibernation) (d : DeconDevice)
    (h1 : s.decon = some d) (h2 : d.state = DeconState.DECON_STATE_ON) :
    (hibCycle s).decon = some d := by
  obtain ⟨dec, trig, blk, cam, wb, dsim, fp⟩ := s
  obtain ⟨st, fps, dwb, ddsim, pm⟩ := d
  simp only at h1 h2
  subst h1
  subst h2
  simp only [hibCycle, exynos_hibernation_enter, exynos_hibernation_exit,
    exynos_hibernation_trig_reset, hibernation_block, hibernation_unblock,
    decon_enter_hibernation, decon_exit_hibernation, decon_get_wb,
    decon_get_dsim, pm_runtime_put_sync, pm_runtime_get_sync]
  simp

end ExynosDrm

namespace ExynosDrm

/-- C10: `hibernation_block_exit` on an absent (NULL) controller handle
returns false, increments no veto count and attempts no exit (the state is
unchanged and the trace is empty). -/
theorem hib_c10 : hibernation_block_exit none = (false, none, []) := rfl

/-- C9: every execution of `exynos_hibernation_enter` and of
`exynos_hibernation_exit` leaves the veto count equal to its value before
the call, and in each trace the internal block events are matched
one-to-one by unblock events (both zero on the early-return paths). -/
theorem hib_c9 : ∀ s : ExynosHibernation,
    (exynos_hibernation_enter s).1.block_cnt = s.block_cnt ∧
    (exynos_hibernation_exit s).2.1.block_cnt = s.block_cnt ∧
    countEv Ev.blockEv (exynos_hibernation_enter s).2
      = countEv Ev.unblockEv (exynos_hibernation_enter s).2 ∧
    countEv Ev.blockEv (exynos_hibernation_exit s).2.2
      = countEv Ev.unblockEv (exynos_hibernation_exit s).2.2 := by
  intro s
  refine ⟨enter_block_cnt s, exit_block_cnt s, ?_, ?_⟩ <;>
  · obtain ⟨dec, trig, blk, cam, wb, dsim, fp⟩ := s
    cases dec with
    | none =>
      simp [exynos_hibernation_enter, exynos_hibernation_exit, countEv_nil]
    | some d =>
      obtain ⟨st, fps, dwb, ddsim, pm⟩ := d
      cases st <;> cases dwb <;> cases ddsim <;> cases wb <;> cases dsim <;>
        simp [exynos_hibernation_enter, exynos_hibernation_exit,
          exynos_hibernation_trig_reset, hibernation_block, hibernation_unblock,
          decon_enter_hibernation, decon_exit_hibernation, decon_get_wb,
          decon_get_dsim, pm_runtime_put_sync, pm_runtime_get_sync, optEv,
          countEv_append, countEv_cons, countEv_nil]

/-- C7: invoking `exynos_hibernation_enter` while the pipeline is present
but not ACTIVE is a defensive no-op: the state (pipeline, captured
handles, veto count) is returned exactly as it was, the trace shows the
lock and internal block both released before returning, and no subsystem
is notified. -/
theorem hib_c7 : ∀ (s : ExynosHibernation) (d : DeconDevice),
    s.decon = some d → d.state ≠ DeconState.DECON_STATE_ON →
    (exynos_hibernation_enter s).1 = s ∧
    (exynos_hibernation_enter s).2
      = [Ev.mutexLock, Ev.blockEv, Ev.unblockEv, Ev.mutexUnlock] ∧
    notifyEvents (exynos_hibernation_enter s).2 = [] := by
  intro s d h1 h2
  obtain ⟨dec, trig, blk, cam, wb, dsim, fp⟩ := s
  simp only at h1
  subst h1
  simp [exynos_hibernation_enter, hibernation_block, hibernation_unblock,
    notifyEvents, Ev.isNotify, h2]

/-- C5: `exynos_hibernation_exit` with the pipeline present resets the
trigger counter to the computed countdown regardless of the pipeline
state; and when the pipeline is already ACTIVE it performs no subsystem
notification and changes nothing except that trigger counter. -/
theorem hib_c5 : ∀ (s : ExynosHibernation) (d : DeconDevice),
    s.decon = some d →
    (exynos_hibernation_exit s).2.1.trig_cnt = (entryCnt d.fps : Int) ∧
    (d.state = DeconState.DECON_STATE_ON →
      notifyEvents (exynos_hibernation_exit s).2.2 = [] ∧
      (exynos_hibernation_exit s).2.1
        = { s with trig_cnt := (entryCnt d.fps : Int) }) := by
  intro s d h1
  obtain ⟨dec, trig, blk, cam, wb, dsim, fp⟩ := s
  simp only at h1
  subst h1
  obtain ⟨st, fps, dwb, ddsim, pm⟩ := d
  cases st <;>
    simp [exynos_hibernation_exit, exynos_hibernation_trig_reset,
      hibernation_block, hibernation_unblock, decon_exit_hibernation,
      pm_runtime_get_sync, notifyEvents, Ev.isNotify]

/-- C5 witness: the theorem applied to the concrete ACTIVE controller
`sOn`. -/
theorem hib_c5_witness :
    (exynos_hibernation_exit sOn).2.1.trig_cnt = (entryCnt dOn.fps : Int) ∧
    (dOn.state = DeconState.DECON_STATE_ON →
      notifyEvents (exynos_hibernation_exit sOn).2.2 = [] ∧
      (exynos_hibernation_exit sOn).2.1
        = { sOn with trig_cnt := (entryCnt dOn.fps : Int) }) :=
  hib_c5 sOn dOn rfl

/-- C4: `exynos_hibernation_exit` returns exactly one of three outcomes:
`-ENODEV` iff the pipeline reference is absent, `-EBUSY` (the distinct
no-op outcome) iff the pipeline is present but not HIBERNATING, and 0
(success) iff the pipeline is present and HIBERNATING. -/
theorem hib_c4 : ∀ s : ExynosHibernation,
    ((exynos_hibernation_exit s).1 = ENODEV_NEG ∨
      (exynos_hibernation_exit s).1 = EBUSY_NEG ∨
      (exynos_hibernation_exit s).1 = 0) ∧
    ((exynos_hibernation_exit s).1 = ENODEV_NEG ↔ s.decon = none) ∧
    ((exynos_hibernation_exit s).1 = EBUSY_NEG ↔
      ∃ d, s.decon = some d ∧ d.state ≠ DeconState.DECON_STATE_HIBERNATION) ∧
    ((exynos_hibernation_exit s).1 = 0 ↔
      ∃ d, s.decon = some d ∧ d.state = DeconState.DECON_STATE_HIBERNATION) := by
  intro s
  obtain ⟨dec, trig, blk, cam, wb, dsim, fp⟩ := s
  cases dec with
  | none =>
    simp [exynos_hibernation_exit, ENODEV_NEG, EBUSY_NEG]
  | some d =>
    obtain ⟨st, fps, dwb, ddsim, pm⟩ := d
    cases st <;>
      simp [exynos_hibernation_exit, exynos_hibernation_trig_reset,
        hibernation_block, hibernation_unblock, decon_exit_hibernation,
        pm_runtime_get_sync, ENODEV_NEG, EBUSY_NEG]

end ExynosDrm

namespace ExynosDrm

/-- C1 (amended): `exynos_hibernation_check` returns true iff the veto
count is zero, the camera is inactive (or its register absent) and the
decrement of the trigger counter reaches zero; but — because the C `&&`
short-circuits — the counter is decremented exactly when the veto count is
zero and the camera inactive, and is left untouched when either earlier
condition fails.  Nothing else of the state changes. -/
theorem hib_c1 : ∀ s : ExynosHibernation,
    ((exynos_hibernation_check s).1 = true ↔
      s.block_cnt = 0 ∧ is_camera_operating s = false ∧ s.trig_cnt - 1 = 0) ∧
    ((exynos_hibernation_check s).2.trig_cnt =
      if s.block_cnt = 0 ∧ is_camera_operating s = false
      then s.trig_cnt - 1 else s.trig_cnt) ∧
    (exynos_hibernation_check s).2.block_cnt = s.block_cnt ∧
    (exynos_hibernation_check s).2.decon = s.decon ∧
    (exynos_hibernation_check s).2.wb = s.wb ∧
    (exynos_hibernation_check s).2.dsim = s.dsim := by
  intro s
  obtain ⟨dec, trig, blk, cam, wb, dsim, fp⟩ := s
  cases cam with
  | none =>
    cases blk <;>
      simp [exynos_hibernation_check, is_hibernaton_blocked, is_camera_operating,
        atomic_dec_and_test, beq_iff_eq]
  | some v =>
    by_cases hv : v &&& CAMERA_OPERATION_MASK = 0 <;>
      cases blk <;>
        simp [exynos_hibernation_check, is_hibernaton_blocked, is_camera_operating,
          atomic_dec_and_test, beq_iff_eq, hv]

/-- C1 counterexample: with one veto held (`sBlocked`, countdown 5) the
check leaves the countdown at 5, and with the camera operating (`sCam`,
countdown 5) it also leaves it at 5 — the countdown is NOT consumed when
the earlier conditions fail, contrary to the claim. -/
theorem hib_c1_cex :
    (exynos_hibernation_check sBlocked).1 = false ∧
    (exynos_hibernation_check sBlocked).2.trig_cnt ≠ sBlocked.trig_cnt - 1 ∧
    (exynos_hibernation_check sCam).1 = false ∧
    (exynos_hibernation_check sCam).2.trig_cnt ≠ sCam.trig_cnt - 1 := by
  decide

/-- C2 (amended): `hibernation_block_exit` on a present controller
unconditionally increments the veto count and invokes the exit operation
(which itself decides whether an exit is needed); its result is true
exactly when the function table is absent or the exit returned success —
that is, the pipeline was present and HIBERNATING and has been woken to
ACTIVE — and false (not true) when the exit reports already-active or a
missing pipeline. -/
theorem hib_c2 : ∀ s : ExynosHibernation,
    (∀ h', (hibernation_block_exit (some s)).2.1 = some h' →
      h'.block_cnt = s.block_cnt + 1) ∧
    ((hibernation_block_exit (some s)).1 = true ↔
      (s.funcs_present = false ∨
        ∃ d, s.decon = some d ∧ d.state = DeconState.DECON_STATE_HIBERNATION)) ∧
    (s.funcs_present = true →
      ∀ d, s.decon = some d → d.state = DeconState.DECON_STATE_HIBERNATION →
        resultDeconState (hibernation_block_exit (some s))
          = some DeconState.DECON_STATE_ON) := by
  intro s
  obtain ⟨dec, trig, blk, cam, wb, dsim, fp⟩ := s
  cases fp with
  | false =>
    simp [hibernation_block_exit, hibernation_block, resultDeconState]
  | true =>
    cases dec with
    | none =>
      simp [hibernation_block_exit, exynos_hibernation_exit, hibernation_block,
        resultDeconState, ENODEV_NEG]
    | some d =>
      obtain ⟨st, fps, dwb, ddsim, pm⟩ := d
      cases st <;>
        simp [hibernation_block_exit, exynos_hibernation_exit, hibernation_block,
          hibernation_unblock, exynos_hibernation_trig_reset,
          decon_exit_hibernation, pm_runtime_get_sync, resultDeconState,
          ENODEV_NEG, EBUSY_NEG]

/-- C2 counterexample: on the concrete hibernating controller `sHib` the
exit runs, succeeds (returns 0) and leaves the pipeline ACTIVE, yet
`hibernation_block_exit` returns TRUE — the claim's reading (true = still
hibernating / failed to wake) is the opposite of the code's. -/
theorem hib_c2_cex :
    (hibernation_block_exit (some sHib)).1 = true ∧
    resultDeconState (hibernation_block_exit (some sHib))
      = some DeconState.DECON_STATE_ON ∧
    (exynos_hibernation_exit (hibernation_block sHib)).1 = 0 := by
  decide

/-- C8: the captured link/writeback handles are clear whenever the
pipeline is ACTIVE: the invariant holds after registration, is preserved
by both `enter` and `exit`, the handles are populated (from the
pipeline's attached sub-objects) by an enter that runs from ACTIVE, and
are cleared by an exit that runs from HIBERNATING. -/
theorem hib_c8 : ∀ s : ExynosHibernation, handlesClear s = true →
    handlesClear (exynos_hibernation_enter s).1 = true ∧
    handlesClear (exynos_hibernation_exit s).2.1 = true ∧
    (∀ d, s.decon = some d → d.state = DeconState.DECON_STATE_ON →
      (exynos_hibernation_enter s).1.wb = d.wb ∧
      (exynos_hibernation_enter s).1.dsim = d.dsim) ∧
    (∀ d, s.decon = some d → d.state = DeconState.DECON_STATE_HIBERNATION →
      (exynos_hibernation_exit s).2.1.wb = none ∧
      (exynos_hibernation_exit s).2.1.dsim = none) ∧
    (∀ (d : DeconDevice) (hs : Bool) (cam : Option (Option Nat))
        (h' : ExynosHibernation),
      exynos_hibernation_register d hs cam = some h' → handlesClear h' = true) := by
  have hreg : ∀ (d : DeconDevice) (hs : Bool) (cam : Option (Option Nat))
      (h' : ExynosHibernation),
      exynos_hibernation_register d hs cam = some h' → handlesClear h' = true := by
    intro d hs cam h' hr
    cases hs <;> rcases cam with _ | (_ | v) <;>
      simp [exynos_hibernation_register, exynos_hibernation_trig_reset] at hr <;>
      subst hr <;>
      simp [handlesClear]
  intro s hinv
  obtain ⟨dec, trig, blk, cam, wb, dsim, fp⟩ := s
  refine ⟨?_, ?_, ?_, ?_, hreg⟩
  · cases dec with
    | none => simpa [exynos_hibernation_enter] using hinv
    | some d =>
      obtain ⟨st, fps, dwb, ddsim, pm⟩ := d
      cases st <;>
        simp_all [exynos_hibernation_enter, hibernation_block, hibernation_unblock,
          decon_enter_hibernation, decon_get_wb, decon_get_dsim,
          pm_runtime_put_sync, handlesClear]
  · cases dec with
    | none => simpa [exynos_hibernation_exit] using hinv
    | some d =>
      obtain ⟨st, fps, dwb, ddsim, pm⟩ := d
      cases st <;>
        simp_all [exynos_hibernation_exit, exynos_hibernation_trig_reset,
          hibernation_block, hibernation_unblock, decon_exit_hibernation,
          pm_runtime_get_sync, handlesClear]
  · intro d hd hst
    simp only at hd
    subst hd
    obtain ⟨st, fps, dwb, ddsim, pm⟩ := d
    simp only at hst
    subst hst
    simp [exynos_hibernation_enter, hibernation_block, hibernation_unblock,
      decon_enter_hibernation, decon_get_wb, decon_get_dsim, pm_runtime_put_sync]
  · intro d hd hst
    simp only at hd
    subst hd
    obtain ⟨st, fps, dwb, ddsim, pm⟩ := d
    simp only at hst
    subst hst
    simp [exynos_hibernation_exit, exynos_hibernation_trig_reset,
      hibernation_block, hibernation_unblock, decon_exit_hibernation,
      pm_runtime_get_sync]

/-- C8 witness: the theorem applied to the concrete ACTIVE controller
`sOn` (whose handles are clear). -/
theorem hib_c8_witness :
    handlesClear (exynos_hibernation_enter sOn).1 = true ∧
    handlesClear (exynos_hibernation_exit sOn).2.1 = true ∧
    (∀ d, sOn.decon = some d → d.state = DeconState.DECON_STATE_ON →
      (exynos_hibernation_enter sOn).1.wb = d.wb ∧
      (exynos_hibernation_enter sOn).1.dsim = d.dsim) ∧
    (∀ d, sOn.decon = some d → d.state = DeconState.DECON_STATE_HIBERNATION →
      (exynos_hibernation_exit sOn).2.1.wb = none ∧
      (exynos_hibernation_exit sOn).2.1.dsim = none) ∧
    (∀ (d : DeconDevice) (hs : Bool) (cam : Option (Option Nat))
        (h' : ExynosHibernation),
      exynos_hibernation_register d hs cam = some h' → handlesClear h' = true) :=
  hib_c8 sOn rfl

end ExynosDrm

namespace ExynosDrm

theorem ceil_div_1000 (a : Nat) :
    ⌈(a : ℚ) / 1000⌉ = (((a + 999) / 1000 : Nat) : Int) := by
  have h1 : 1000 * ((a + 999) / 1000) < a + 1000 := by omega
  have h2 : a ≤ 1000 * ((a + 999) / 1000) := by omega
  generalize (a + 999) / 1000 = n at h1 h2 ⊢
  rw [Int.ceil_eq_iff]
  constructor
  · rw [lt_div_iff₀ (by norm_num : (0:ℚ) < 1000)]
    have hq : (1000 * n : ℚ) < (a : ℚ) + 1000 := by exact_mod_cast h1
    push_cast
    linarith
  · rw [div_le_iff₀ (by norm_num : (0:ℚ) < 1000)]
    have hq : (a : ℚ) ≤ (1000 * n : ℚ) := by exact_mod_cast h2
    push_cast
    linarith

/-- C3: from an ACTIVE pipeline, `enter` notifies the subsystems in
exactly the order writeback (if attached), pipeline, link ULPS (if
attached), bandwidth release, power-domain put — releasing the
power-domain reference exactly once — and the paired `exit` performs the
exact reverse: power-domain get, link out of ULPS, pipeline, writeback;
iterated enter/exit cycles return the pipeline (state and power-domain
count included) to exactly its original value, so there is no double
release or double acquire. -/
theorem hib_c3 : ∀ (s : ExynosHibernation) (d : DeconDevice),
    s.decon = some d → d.state = DeconState.DECON_STATE_ON →
    notifyEvents (exynos_hibernation_enter s).2 =
      optEv Ev.writebackEnter d.wb ++ [Ev.deconEnterEv]
        ++ optEv Ev.dsimEnterUlps d.dsim ++ [Ev.releaseBw, Ev.pmPut] ∧
    notifyEvents (exynos_hibernation_exit (exynos_hibernation_enter s).1).2.2 =
      [Ev.pmGet] ++ optEv Ev.dsimExitUlps d.dsim ++ [Ev.deconExitEv]
        ++ optEv Ev.writebackExit d.wb ∧
    (∃ d', (exynos_hibernation_enter s).1.decon = some d' ∧
      d'.state = DeconState.DECON_STATE_HIBERNATION ∧ d'.pm_cnt = d.pm_cnt - 1) ∧
    (∀ n : Nat, (hibCycle^[n] s).decon = some d) := by
  intro s d h1 h2
  have hcyc : ∀ n : Nat, (hibCycle^[n] s).decon = some d := by
    intro n
    induction n with
    | zero => simpa using h1
    | succ n ih =>
      rw [Function.iterate_succ_apply']
      exact hibCycle_decon _ _ ih h2
  refine ⟨?_, ?_, ?_, hcyc⟩ <;>
  · obtain ⟨dec, trig, blk, cam, wb, dsim, fp⟩ := s
    simp only at h1
    subst h1
    obtain ⟨st, fps, dwb, ddsim, pm⟩ := d
    simp only at h2
    subst h2
    cases dwb <;> cases ddsim <;>
      simp [exynos_hibernation_enter, exynos_hibernation_exit,
        exynos_hibernation_trig_reset, hibernation_block, hibernation_unblock,
        decon_enter_hibernation, decon_exit_hibernation, decon_get_wb,
        decon_get_dsim, pm_runtime_put_sync, pm_runtime_get_sync,
        notifyEvents, Ev.isNotify, optEv]

/-- C3 witness: the theorem applied to the concrete ACTIVE controller
`sOn` (writeback 7 and link 5 attached), with two full cycles iterated. -/
theorem hib_c3_witness :
    notifyEvents (exynos_hibernation_enter sOn).2 =
      optEv Ev.writebackEnter dOn.wb ++ [Ev.deconEnterEv]
        ++ optEv Ev.dsimEnterUlps dOn.dsim ++ [Ev.releaseBw, Ev.pmPut] ∧
    notifyEvents (exynos_hibernation_exit (exynos_hibernation_enter sOn).1).2.2 =
      [Ev.pmGet] ++ optEv Ev.dsimExitUlps dOn.dsim ++ [Ev.deconExitEv]
        ++ optEv Ev.writebackExit dOn.wb ∧
    (∃ d', (exynos_hibernation_enter sOn).1.decon = some d' ∧
      d'.state = DeconState.DECON_STATE_HIBERNATION ∧ d'.pm_cnt = dOn.pm_cnt - 1) ∧
    (hibCycle^[2] sOn).decon = some dOn :=
  ⟨(hib_c3 sOn dOn rfl rfl).1, (hib_c3 sOn dOn rfl rfl).2.1,
    (hib_c3 sOn dOn rfl rfl).2.2.1, (hib_c3 sOn dOn rfl rfl).2.2.2 2⟩

/-- C7 witness: the theorem applied to the concrete HIBERNATING controller
`sHib` (whose pipeline is not ACTIVE). -/
theorem hib_c7_witness :
    (exynos_hibernation_enter sHib).1 = sHib ∧
    (exynos_hibernation_enter sHib).2
      = [Ev.mutexLock, Ev.blockEv, Ev.unblockEv, Ev.mutexUnlock] ∧
    notifyEvents (exynos_hibernation_enter sHib).2 = [] :=
  hib_c7 sHib dHib rfl (by decide)

/-- C6: the countdown stored by a trigger reset is exactly
`max 1 ⌈fps * 50 / 1000⌉` (rational ceiling) with `fps` defaulting to 60
when the pipeline reports no rate (so 0 and 60 both give 3); and from a
freshly reset countdown the first `entry_cnt - 1` decrements each report
false while the `entry_cnt`-th reports true. -/
theorem hib_c6 : ∀ fps : Nat,
    ((entryCnt fps : Int)
      = max 1 ⌈(((if fps = 0 then 60 else fps) * 50 : Nat) : ℚ) / 1000⌉) ∧
    entryCnt 0 = 3 ∧
    entryCnt 60 = 3 ∧
    (∀ (s : ExynosHibernation) (d : DeconDevice), s.decon = some d →
      (exynos_hibernation_trig_reset s).trig_cnt = (entryCnt d.fps : Int)) ∧
    (∀ k : Nat, k + 1 < entryCnt fps →
      (atomic_dec_and_test (doTicks (entryCnt fps) k)).2 = false) ∧
    (atomic_dec_and_test (doTicks (entryCnt fps) (entryCnt fps - 1))).2 = true := by
  intro fps
  have hceil : (entryCnt fps : Int)
      = max 1 ⌈(((if fps = 0 then 60 else fps) * 50 : Nat) : ℚ) / 1000⌉ := by
    rw [ceil_div_1000]
    have hmax : entryCnt fps
        = max 1 (((if fps = 0 then 60 else fps) * 50 + 999) / 1000) := by
      simp only [entryCnt, DIV_ROUND_UP, HIBERNATION_ENTRY_DEFAULT_FPS,
        HIBERNATION_ENTRY_MIN_TIME_MS, MSEC_PER_SEC, HIBERNATION_ENTRY_MIN_ENTRY_CNT]
      generalize (if fps = 0 then (60:Nat) else fps) = f
      split <;> omega
    rw [hmax]
    push_cast
    rfl
  have hreset : ∀ (s : ExynosHibernation) (d : DeconDevice), s.decon = some d →
      (exynos_hibernation_trig_reset s).trig_cnt = (entryCnt d.fps : Int) := by
    intro s d hd
    obtain ⟨dec, trig, blk, cam, wb, dsim, fp⟩ := s
    simp only at hd
    subst hd
    rfl
  have hfalse : ∀ k : Nat, k + 1 < entryCnt fps →
      (atomic_dec_and_test (doTicks (entryCnt fps) k)).2 = false := by
    intro k hk
    rw [doTicks_eq]
    simp only [atomic_dec_and_test, beq_eq_false_iff_ne, ne_eq]
    omega
  have htrue :
      (atomic_dec_and_test (doTicks (entryCnt fps) (entryCnt fps - 1))).2 = true := by
    have h1 := one_le_entryCnt fps
    rw [doTicks_eq]
    simp only [atomic_dec_and_test, beq_iff_eq]
    omega
  exact ⟨hceil, rfl, rfl, hreset, hfalse, htrue⟩

end ExynosDrm
